import Mathlib

/-! Shallow embedding of `lib/Target/AVR/MCTargetDesc/AVRAsmBackend.cpp`.

The C++ code threads a mutable `uint64_t Value` through a family of adjustment
helpers (namespace `adjust`), dispatches on the fixup kind in
`AVRAsmBackend::adjustFixupValue`, and merges bytes in `AVRAsmBackend::applyFixup`.
Every helper either mutates `Value` or aborts (a fatal diagnostic through the
`MCContext`, or `llvm_unreachable` when no context is supplied), so each helper is
embedded as a function into `Except AdjustError Nat`.  All arithmetic is the C++
`uint64_t` arithmetic, i.e. natural numbers with explicit reduction `% 2 ^ 64`
wherever the C++ computation can wrap.
-/

namespace AVR

/-- The constant `2 ^ 64`, the wraparound modulus of the C++ `uint64_t` arithmetic. -/
def two64 : Nat := 18446744073709551616

/-- The value of a C++ `uint64_t` bit pattern reinterpreted as `int64_t`
(two-complement), as done by the implicit conversions in `isIntN` /
`minIntN` / `maxIntN` when the templates are instantiated at `uint64_t`. -/
def toInt64 (v : Nat) : Int :=
  if v < 9223372036854775808 then (v : Int) else (v : Int) - 18446744073709551616

/-- Embeds `llvm::isIntN(N, x)` from `MathExtras.h`: `x` fits a signed
two-complement field of `N` bits (`N >= 64` is always true). -/
def isIntN (N : Nat) (v : Nat) : Bool :=
  decide (64 ≤ N) ||
    (decide (-(2 ^ (N - 1) : Int) ≤ toInt64 v) && decide (toInt64 v < 2 ^ (N - 1)))

/-- Embeds `llvm::isUIntN(N, x)` from `MathExtras.h`: `x` fits an unsigned
field of `N` bits (`N >= 64` is always true). -/
def isUIntN (N : Nat) (v : Nat) : Bool :=
  decide (64 ≤ N) || decide (v ≤ 2 ^ N - 1)

/-- Embeds `llvm::minIntN(N)`. -/
def minIntN (N : Nat) : Int := -(2 ^ (N - 1))

/-- Embeds `llvm::maxIntN(N)`. -/
def maxIntN (N : Nat) : Int := 2 ^ (N - 1) - 1

/-- Embeds `llvm::maxUIntN(N)` (as the `int64_t` it is assigned to; every
width used by this backend is at most 23, so no conversion wrap occurs). -/
def maxUIntN (N : Nat) : Nat := 2 ^ N - 1

/-- How a failed width check aborts: `MCContext::reportFatalError` when a
diagnostic context was supplied, `llvm_unreachable` otherwise.  Both carry the
same diagnostic string. -/
inductive AdjustError where
  | diagnostic (message : String)
  | unreachableFault (message : String)
  deriving DecidableEq

deriving instance DecidableEq for Except

/-- The AVR target fixup kinds, together with the generic (target-independent)
kinds mentioned by the switch of the backend.  The target kinds and their order are the
ones of the name-indexed `Infos` table in `AVRAsmBackend::getFixupKindInfo`
(the enum itself lives in the missing header `AVRFixupKinds.h`, which that
table is documented to mirror entry by entry). -/
inductive AVRFixupKind where
  | fixup_32
  | fixup_7_pcrel
  | fixup_13_pcrel
  | fixup_16
  | fixup_16_pm
  | fixup_ldi
  | fixup_lo8_ldi
  | fixup_hi8_ldi
  | fixup_hh8_ldi
  | fixup_ms8_ldi
  | fixup_lo8_ldi_neg
  | fixup_hi8_ldi_neg
  | fixup_hh8_ldi_neg
  | fixup_ms8_ldi_neg
  | fixup_lo8_ldi_pm
  | fixup_hi8_ldi_pm
  | fixup_hh8_ldi_pm
  | fixup_lo8_ldi_pm_neg
  | fixup_hi8_ldi_pm_neg
  | fixup_hh8_ldi_pm_neg
  | fixup_call
  | fixup_6
  | fixup_6_adiw
  | fixup_lo8_ldi_gs
  | fixup_hi8_ldi_gs
  | fixup_8
  | fixup_8_lo8
  | fixup_8_hi8
  | fixup_8_hlo8
  | fixup_sym_diff
  | fixup_16_ldst
  | fixup_lds_sts_16
  | fixup_port6
  | fixup_port5
  | FK_Data_2
  | FK_Data_4
  | FK_Data_8
  | FK_GPRel_4
  deriving DecidableEq

/-- Embeds `llvm::MCFixupKindInfo`: name, bit offset, bit width, is-PC-relative flag. -/
structure MCFixupKindInfo where
  name : String
  targetOffset : Nat
  targetSize : Nat
  isPCRel : Bool
  deriving DecidableEq

/-- Embeds `AVRAsmBackend::getFixupKindInfo`.  Target kinds come from the static
`Infos` table in the source; the four generic kinds delegate to the
target-independent `MCAsmBackend::getFixupKindInfo` table.
Modelled from the spec: the generic table is part of the framework and not
under `src/`; the spec describes the raw 2/4/8-byte data kinds as plain
byte-wide pass-through fields at offset 0, which is what the generic LLVM
table declares. -/
def getFixupKindInfo : AVRFixupKind → MCFixupKindInfo
  | .fixup_32 => ⟨"fixup_32", 0, 32, false⟩
  | .fixup_7_pcrel => ⟨"fixup_7_pcrel", 3, 7, true⟩
  | .fixup_13_pcrel => ⟨"fixup_13_pcrel", 0, 12, true⟩
  | .fixup_16 => ⟨"fixup_16", 0, 16, false⟩
  | .fixup_16_pm => ⟨"fixup_16_pm", 0, 16, false⟩
  | .fixup_ldi => ⟨"fixup_ldi", 0, 8, false⟩
  | .fixup_lo8_ldi => ⟨"fixup_lo8_ldi", 0, 8, false⟩
  | .fixup_hi8_ldi => ⟨"fixup_hi8_ldi", 0, 8, false⟩
  | .fixup_hh8_ldi => ⟨"fixup_hh8_ldi", 0, 8, false⟩
  | .fixup_ms8_ldi => ⟨"fixup_ms8_ldi", 0, 8, false⟩
  | .fixup_lo8_ldi_neg => ⟨"fixup_lo8_ldi_neg", 0, 8, false⟩
  | .fixup_hi8_ldi_neg => ⟨"fixup_hi8_ldi_neg", 0, 8, false⟩
  | .fixup_hh8_ldi_neg => ⟨"fixup_hh8_ldi_neg", 0, 8, false⟩
  | .fixup_ms8_ldi_neg => ⟨"fixup_ms8_ldi_neg", 0, 8, false⟩
  | .fixup_lo8_ldi_pm => ⟨"fixup_lo8_ldi_pm", 0, 8, false⟩
  | .fixup_hi8_ldi_pm => ⟨"fixup_hi8_ldi_pm", 0, 8, false⟩
  | .fixup_hh8_ldi_pm => ⟨"fixup_hh8_ldi_pm", 0, 8, false⟩
  | .fixup_lo8_ldi_pm_neg => ⟨"fixup_lo8_ldi_pm_neg", 0, 8, false⟩
  | .fixup_hi8_ldi_pm_neg => ⟨"fixup_hi8_ldi_pm_neg", 0, 8, false⟩
  | .fixup_hh8_ldi_pm_neg => ⟨"fixup_hh8_ldi_pm_neg", 0, 8, false⟩
  | .fixup_call => ⟨"fixup_call", 0, 22, false⟩
  | .fixup_6 => ⟨"fixup_6", 0, 16, false⟩
  | .fixup_6_adiw => ⟨"fixup_6_adiw", 0, 6, false⟩
  | .fixup_lo8_ldi_gs => ⟨"fixup_lo8_ldi_gs", 0, 8, false⟩
  | .fixup_hi8_ldi_gs => ⟨"fixup_hi8_ldi_gs", 0, 8, false⟩
  | .fixup_8 => ⟨"fixup_8", 0, 8, false⟩
  | .fixup_8_lo8 => ⟨"fixup_8_lo8", 0, 8, false⟩
  | .fixup_8_hi8 => ⟨"fixup_8_hi8", 0, 8, false⟩
  | .fixup_8_hlo8 => ⟨"fixup_8_hlo8", 0, 8, false⟩
  | .fixup_sym_diff => ⟨"fixup_sym_diff", 0, 32, false⟩
  | .fixup_16_ldst => ⟨"fixup_16_ldst", 0, 16, false⟩
  | .fixup_lds_sts_16 => ⟨"fixup_lds_sts_16", 0, 16, false⟩
  | .fixup_port6 => ⟨"fixup_port6", 0, 16, false⟩
  | .fixup_port5 => ⟨"fixup_port5", 3, 5, false⟩
  | .FK_Data_2 => ⟨"FK_Data_2", 0, 16, false⟩
  | .FK_Data_4 => ⟨"FK_Data_4", 0, 32, false⟩
  | .FK_Data_8 => ⟨"FK_Data_8", 0, 64, false⟩
  | .FK_GPRel_4 => ⟨"FK_GPRel_4", 0, 32, false⟩

namespace adjust

/-- Embeds `adjust::signed_width`: diagnose a value that does not fit a signed field
of `Width` bits.  `ctx` records whether an `MCContext` was supplied. -/
def signed_width (Width : Nat) (Value : Nat) (Description : String) (ctx : Bool) :
    Except AdjustError Unit :=
  if isIntN Width Value then .ok () else
    let Diagnostic := "out of range " ++ Description ++
      " (expected an integer in the range " ++ toString (minIntN Width) ++
      " to " ++ toString (maxIntN Width) ++ ")"
    if ctx then .error (.diagnostic Diagnostic)
    else .error (.unreachableFault Diagnostic)

/-- Embeds `adjust::unsigned_width`: diagnose a value that does not fit an unsigned
field of `Width` bits. -/
def unsigned_width (Width : Nat) (Value : Nat) (Description : String) (ctx : Bool) :
    Except AdjustError Unit :=
  if isUIntN Width Value then .ok () else
    let Diagnostic := "out of range " ++ Description ++
      " (expected an integer in the range 0 to " ++
      toString ((maxUIntN Width : Int)) ++ ")"
    if ctx then .error (.diagnostic Diagnostic)
    else .error (.unreachableFault Diagnostic)

/-- Sequencing of a width check with the rest of an adjustment: the C++ checks
abort on failure, so the transformed value is produced only when the check
passes. -/
def afterCheck (check : Except AdjustError Unit) (t : Nat) : Except AdjustError Nat :=
  match check with
  | .error e => .error e
  | .ok _ => .ok t

/-- Post-composition of a further pure transformation onto an adjustment that
may already have aborted. -/
def mapOk (c : Except AdjustError Nat) (f : Nat → Nat) : Except AdjustError Nat :=
  match c with
  | .error e => .error e
  | .ok v => .ok (f v)

/-- Modelled from the spec: `AVR::fixups::adjustBranchTarget` lives in the
missing header `AVRFixupKinds.h`; both call sites document it as
“Rightshifts the value by one” (on the `uint64_t` instantiation used here
this is the logical right shift of `uint64_t`). -/
def adjustBranchTarget (v : Nat) : Nat := v >>> 1

/-- Embeds `adjust::adjustBranch`: absolute branch target; one extra bit of precision
because the value is right-shifted by one. -/
def adjustBranch (Size : Nat) (Value : Nat) (ctx : Bool) : Except AdjustError Nat :=
  afterCheck (unsigned_width (Size + 1) Value ("branch target") ctx)
    (adjustBranchTarget Value)

/-- Embeds `adjust::adjustRelativeBranch`: relative branch target; `Value -= 2` is
`uint64_t` arithmetic and may wrap. -/
def adjustRelativeBranch (Size : Nat) (Value : Nat) (ctx : Bool) : Except AdjustError Nat :=
  afterCheck (signed_width (Size + 1) Value ("branch target") ctx)
    (adjustBranchTarget ((Value + two64 - 2) % two64))

/-- Embeds `adjust::fixup_call`, the 22-bit absolute call fixup. -/
def fixup_call (Size : Nat) (Value : Nat) (ctx : Bool) : Except AdjustError Nat :=
  mapOk (adjustBranch Size Value ctx) fun Value =>
    let top := Value &&& (0xf <<< 14)
    let middle := Value &&& (0x1ffff <<< 5)
    let bottom := Value &&& 0x1f
    (top <<< 6) ||| (middle <<< 3) ||| (bottom <<< 0)

/-- Embeds `adjust::fixup_7_pcrel`. -/
def fixup_7_pcrel (Size : Nat) (Value : Nat) (ctx : Bool) : Except AdjustError Nat :=
  mapOk (adjustRelativeBranch Size Value ctx) fun Value => Value &&& 0x7f

/-- Embeds `adjust::fixup_13_pcrel` (a 12-bit field, despite the name). -/
def fixup_13_pcrel (Size : Nat) (Value : Nat) (ctx : Bool) : Except AdjustError Nat :=
  mapOk (adjustRelativeBranch Size Value ctx) fun Value => Value &&& 0xfff

/-- Embeds `adjust::fixup_6_adiw`. -/
def fixup_6_adiw (Value : Nat) (ctx : Bool) : Except AdjustError Nat :=
  afterCheck (unsigned_width 6 Value ("immediate") ctx)
    (((Value &&& 0x30) <<< 2) ||| (Value &&& 0x0f))

/-- Embeds `adjust::fixup_port5`. -/
def fixup_port5 (Value : Nat) (ctx : Bool) : Except AdjustError Nat :=
  afterCheck (unsigned_width 5 Value ("port number") ctx)
    ((Value &&& 0x1f) <<< 3)

/-- Embeds `adjust::fixup_port6`. -/
def fixup_port6 (Value : Nat) (ctx : Bool) : Except AdjustError Nat :=
  afterCheck (unsigned_width 6 Value ("port number") ctx)
    (((Value &&& 0x30) <<< 5) ||| (Value &&& 0x0f))

/-- Embeds `adjust::pm`: adjust a program memory address (a simple right-shift). -/
def pm (Value : Nat) : Nat := Value >>> 1

namespace ldi

/-- Embeds `adjust::ldi::fixup`: re-split a byte for the `LDI Rd, K` immediate
(`0000 KKKK 0000 KKKK`).  The `Size` argument is unused by the source too. -/
def fixup (Size : Nat) (Value : Nat) : Nat :=
  let upper := Value &&& 0xf0
  let lower := Value &&& 0x0f
  (upper <<< 4) ||| lower

/-- Embeds `adjust::ldi::neg`: `Value *= -1` in `uint64_t` arithmetic. -/
def neg (Value : Nat) : Nat := (two64 - Value % two64) % two64

/-- Embeds `adjust::ldi::lo8`. -/
def lo8 (Size : Nat) (Value : Nat) : Nat := fixup Size (Value &&& 0xff)

/-- Embeds `adjust::ldi::hi8`. -/
def hi8 (Size : Nat) (Value : Nat) : Nat := fixup Size ((Value &&& 0xff00) >>> 8)

/-- Embeds `adjust::ldi::hh8`. -/
def hh8 (Size : Nat) (Value : Nat) : Nat := fixup Size ((Value &&& 0xff0000) >>> 16)

/-- Embeds `adjust::ldi::ms8`. -/
def ms8 (Size : Nat) (Value : Nat) : Nat := fixup Size ((Value &&& 0xff000000) >>> 24)

end ldi
end adjust

/-- Embeds `AVRAsmBackend::adjustFixupValue`: dispatch on the fixup kind.  `ctx`
records whether a diagnostic `MCContext` was supplied. -/
def adjustFixupValue (Fixup : AVRFixupKind) (Value : Nat) (ctx : Bool) :
    Except AdjustError Nat :=
  let Size := (getFixupKindInfo Fixup).targetSize
  match Fixup with
  | .fixup_7_pcrel => adjust.fixup_7_pcrel Size Value ctx
  | .fixup_13_pcrel => adjust.fixup_13_pcrel Size Value ctx
  | .fixup_call => adjust.fixup_call Size Value ctx
  | .fixup_ldi => .ok (adjust.ldi.fixup Size Value)
  | .fixup_lo8_ldi => .ok (adjust.ldi.lo8 Size Value)
  | .fixup_lo8_ldi_pm => .ok (adjust.ldi.lo8 Size (adjust.pm Value))
  | .fixup_hi8_ldi => .ok (adjust.ldi.hi8 Size Value)
  | .fixup_hi8_ldi_pm => .ok (adjust.ldi.hi8 Size (adjust.pm Value))
  | .fixup_hh8_ldi => .ok (adjust.ldi.hh8 Size Value)
  | .fixup_hh8_ldi_pm => .ok (adjust.ldi.hh8 Size (adjust.pm Value))
  | .fixup_ms8_ldi => .ok (adjust.ldi.ms8 Size Value)
  | .fixup_lo8_ldi_neg => .ok (adjust.ldi.lo8 Size (adjust.ldi.neg Value))
  | .fixup_lo8_ldi_pm_neg => .ok (adjust.ldi.lo8 Size (adjust.ldi.neg (adjust.pm Value)))
  | .fixup_hi8_ldi_neg => .ok (adjust.ldi.hi8 Size (adjust.ldi.neg Value))
  | .fixup_hi8_ldi_pm_neg => .ok (adjust.ldi.hi8 Size (adjust.ldi.neg (adjust.pm Value)))
  | .fixup_hh8_ldi_neg => .ok (adjust.ldi.hh8 Size (adjust.ldi.neg Value))
  | .fixup_hh8_ldi_pm_neg => .ok (adjust.ldi.hh8 Size (adjust.ldi.neg (adjust.pm Value)))
  | .fixup_ms8_ldi_neg => .ok (adjust.ldi.ms8 Size (adjust.ldi.neg Value))
  | .fixup_16 =>
    adjust.afterCheck (adjust.unsigned_width 16 Value ("port number") ctx)
      (Value &&& 0xffff)
  | .fixup_6_adiw => adjust.fixup_6_adiw Value ctx
  | .fixup_port5 => adjust.fixup_port5 Value ctx
  | .fixup_port6 => adjust.fixup_port6 Value ctx
  | .FK_Data_2 => .ok Value
  | .FK_Data_4 => .ok Value
  | .FK_Data_8 => .ok Value
  | .FK_GPRel_4 => .error (.unreachableFault ("don\x27t know how to adjust this fixup"))
  | _ => .error (.unreachableFault ("unhandled fixup"))

/-- Whether an adjustment ran to completion (no diagnostic, no fault). -/
def producesValue : Except AdjustError Nat → Bool
  | .ok _ => true
  | .error _ => false

/-- Whether a width check passed. -/
def checkPasses : Except AdjustError Unit → Bool
  | .ok _ => true
  | .error _ => false

/-- Whether `adjustFixupValue` runs to completion (no diagnostic, no fault). -/
def adjustProducesValue (Fixup : AVRFixupKind) (Value : Nat) (ctx : Bool) : Bool :=
  producesValue (adjustFixupValue Fixup Value ctx)

/-- Embeds `AVRAsmBackend::processFixupValue`.  `isTemporary` is
`Target.getSymA()->getSymbol().isTemporary()`; the in/out pair is
`(Value, IsResolved)`.  The adjustment is invoked with the `MCContext` of the
assembler, hence `ctx = true`. -/
def processFixupValue (Fixup : AVRFixupKind) (isTemporary : Bool) (Value : Nat)
    (IsResolved : Bool) : Except AdjustError (Nat × Bool) :=
  match Fixup with
  | .fixup_7_pcrel => .ok (Value, false)
  | .fixup_13_pcrel => .ok (Value, false)
  | .fixup_call => .ok (Value, false)
  | _ =>
    let Value := if isTemporary then (Value + 2) % two64 else Value
    match adjustFixupValue Fixup Value true with
    | .error e => .error e
    | .ok v => .ok (v, IsResolved)

/-- The byte count spanned by a fixup in `AVRAsmBackend::applyFixup`:
`NumBits = TargetSize + TargetOffset`, `NumBytes = NumBits/8 + (NumBits%8 == 0 ? 0 : 1)`. -/
def numBytesOf (Fixup : AVRFixupKind) : Nat :=
  let Info := getFixupKindInfo Fixup
  let NumBits := Info.targetSize + Info.targetOffset
  NumBits / 8 + (if NumBits % 8 = 0 then 0 else 1)

/-- The loop body of `AVRAsmBackend::applyFixup`: for `i = 0, …, n-1`,
`Data[Offset + i] |= (Value >> (i * 8)) & 0xff`. -/
def applyBytes (Data : List Nat) (Offset : Nat) (Value : Nat) : Nat → List Nat
  | 0 => Data
  | n + 1 =>
    let d := applyBytes Data Offset Value n
    d.set (Offset + n) ((d.getD (Offset + n) 0) ||| ((Value >>> (n * 8)) &&& 0xff))

/-- Embeds `AVRAsmBackend::applyFixup`.  A zero value returns at once (the
source notes it changes no encoding); otherwise the shifted value is OR-merged
byte by byte.
`none` models the `assert(Offset + NumBytes <= DataSize)` firing. -/
def applyFixup (Fixup : AVRFixupKind) (Offset : Nat) (Value : Nat) (Data : List Nat) :
    Option (List Nat) :=
  if Value = 0 then some Data
  else
    let Info := getFixupKindInfo Fixup
    let NumBytes := numBytesOf Fixup
    let Shifted := (Value <<< Info.targetOffset) % two64
    if Offset + NumBytes ≤ Data.length then
      some (applyBytes Data Offset Shifted NumBytes)
    else
      none

/-!
Spec-side definitions.  The following two definitions are transcriptions of the
words of the claims themselves (not of the source); they are compared with what the
source computes.
-/

/-- The redistribution claimed for the 22-bit call fixup: top 4 bits of the
halved value to bits 22–25 of the encoded word, next 13 bits to bits 8–20,
bottom 5 bits kept at bits 0–4. -/
def callClaimedLayout (w : Nat) : Nat :=
  (((w >>> 18) % 2 ^ 4) <<< 22) ||| (((w >>> 5) % 2 ^ 13) <<< 8) ||| (w % 2 ^ 5)

/-- The re-split claimed for an extracted LDI byte: bits 4–7 of the byte to
bits 4–7 of the high byte of the encoded halfword (i.e. bits 12–15), bits 0–3 kept
at bits 0–3. -/
def ldiClaimedResplit (b : Nat) : Nat := ((b &&& 0xf0) <<< 8) ||| (b &&& 0x0f)

/-- The success condition `adjustFixupValue` actually enforces, kind by kind:
the width of the performed range check (which for the branch kinds is
`TargetSize + 1`, for `fixup_port6` is 6 despite the declared width 16, and
for the remaining checked kinds coincides with the declared width); kinds
without a check always succeed; unhandled kinds and `FK_GPRel_4` always
fault. -/
def adjustSuccessCondition (k : AVRFixupKind) (v : Nat) : Bool :=
  match k with
  | .fixup_7_pcrel => isIntN 8 v
  | .fixup_13_pcrel => isIntN 13 v
  | .fixup_call => isUIntN 23 v
  | .fixup_16 => isUIntN 16 v
  | .fixup_6_adiw => isUIntN 6 v
  | .fixup_port5 => isUIntN 5 v
  | .fixup_port6 => isUIntN 6 v
  | .fixup_ldi | .fixup_lo8_ldi | .fixup_hi8_ldi | .fixup_hh8_ldi | .fixup_ms8_ldi
  | .fixup_lo8_ldi_neg | .fixup_hi8_ldi_neg | .fixup_hh8_ldi_neg | .fixup_ms8_ldi_neg
  | .fixup_lo8_ldi_pm | .fixup_hi8_ldi_pm | .fixup_hh8_ldi_pm
  | .fixup_lo8_ldi_pm_neg | .fixup_hi8_ldi_pm_neg | .fixup_hh8_ldi_pm_neg
  | .FK_Data_2 | .FK_Data_4 | .FK_Data_8 => true
  | _ => false

/-!  General helper lemmas. -/

/-- Masking with a contiguous window of `k` bits starting at bit `s` selects
`(x >>> s) % 2 ^ k`, kept in place at bit `s`. -/
theorem and_mask_window (x k s : Nat) :
    x &&& ((2 ^ k - 1) <<< s) = ((x >>> s) % 2 ^ k) <<< s := by
  apply Nat.eq_of_testBit_eq
  intro i
  simp only [Nat.testBit_and, Nat.testBit_shiftLeft, Nat.testBit_mod_two_pow,
    Nat.testBit_shiftRight, Nat.testBit_two_pow_sub_one, ge_iff_le]
  rcases Nat.lt_or_ge i s with hi | hi
  · simp [Nat.not_le.2 hi]
  · have h2 : s + (i - s) = i := by omega
    simp only [hi, decide_True, Bool.true_and, h2]
    cases x.testBit i <;> simp

/-- Running `producesValue` over a checked adjustment reduces to the check. -/
theorem producesValue_afterCheck (c : Except AdjustError Unit) (t : Nat) :
    producesValue (adjust.afterCheck c t) = checkPasses c := by
  cases c <;> rfl

/-- Applying a pure post-transformation leaves `producesValue` unchanged. -/
theorem producesValue_mapOk (c : Except AdjustError Nat) (f : Nat → Nat) :
    producesValue (adjust.mapOk c f) = producesValue c := by
  cases c <;> rfl

/-- The unsigned width check passes exactly on `isUIntN`. -/
theorem checkPasses_unsigned_width (Width Value : Nat) (D : String) (ctx : Bool) :
    checkPasses (adjust.unsigned_width Width Value D ctx) = isUIntN Width Value := by
  by_cases h : isUIntN Width Value = true
  · simp [adjust.unsigned_width, h, checkPasses]
  · cases ctx <;> simp [adjust.unsigned_width, h, checkPasses, Bool.not_eq_true] at *

/-- The signed width check passes exactly on `isIntN`. -/
theorem checkPasses_signed_width (Width Value : Nat) (D : String) (ctx : Bool) :
    checkPasses (adjust.signed_width Width Value D ctx) = isIntN Width Value := by
  by_cases h : isIntN Width Value = true
  · simp [adjust.signed_width, h, checkPasses]
  · cases ctx <;> simp [adjust.signed_width, h, checkPasses, Bool.not_eq_true] at *

/-- Rewrites `adjust.ldi.fixup` in windowed form: bits 4–7 of its argument end up at
bits 8–11, bits 0–3 stay at bits 0–3. -/
theorem ldi_fixup_eq (Size b : Nat) :
    adjust.ldi.fixup Size b = (((b >>> 4) % 2 ^ 4) <<< 8) ||| (b % 2 ^ 4) := by
  show ((b &&& 0xf0) <<< 4) ||| (b &&& 0x0f) = _
  rw [show (0xf0 : Nat) = (2 ^ 4 - 1) <<< 4 by decide, and_mask_window,
    Nat.shiftLeft_shiftLeft, show (0x0f : Nat) = 2 ^ 4 - 1 by decide,
    Nat.and_pow_two_sub_one_eq_mod]

/-!  Claim theorems. -/

/-- C1 (corrected).  For the 22-bit absolute call fixup, `adjust` checks
that the byte-address value fits an unsigned field of `TargetSize + 1 = 23`
bits and right-shifts it by one; but the redistribution then moves bits 5–21
of the shifted value to bits 8–24 of the encoded word, additionally ORs
bits 14–17 of the shifted value into bits 20–23, and keeps the bottom 5 bits
at bits 0–4 (the claimed positions 22–25 / 8–20 are not what the masks
`0xf << 14` and `0x1ffff << 5` produce). -/
theorem claim1_call_redistribution :
    (∀ v ctx, adjustProducesValue .fixup_call v ctx =
      isUIntN ((getFixupKindInfo .fixup_call).targetSize + 1) v) ∧
    (∀ v : Nat, isUIntN 23 v = true →
      adjustFixupValue .fixup_call v true =
        .ok (((((v >>> 1) >>> 14) % 2 ^ 4) <<< 20) |||
             ((((v >>> 1) >>> 5) % 2 ^ 17) <<< 8) |||
             ((v >>> 1) % 2 ^ 5))) := by
  constructor
  · intro v ctx
    simp [adjustProducesValue, adjustFixupValue, adjust.fixup_call,
      adjust.adjustBranch, producesValue_mapOk, producesValue_afterCheck,
      checkPasses_unsigned_width, getFixupKindInfo]
  · intro v h
    have hc : adjust.unsigned_width (22 + 1) v ("branch target") true = .ok () := by
      simp [adjust.unsigned_width, h]
    show adjust.fixup_call 22 v true = _
    simp only [adjust.fixup_call, adjust.adjustBranch, hc, adjust.afterCheck,
      adjust.mapOk, adjust.adjustBranchTarget]
    rw [show (0xf : Nat) = 2 ^ 4 - 1 by decide,
      show (0x1ffff : Nat) = 2 ^ 17 - 1 by decide,
      show (0x1f : Nat) = 2 ^ 5 - 1 by decide,
      and_mask_window, and_mask_window, Nat.and_pow_two_sub_one_eq_mod,
      Nat.shiftLeft_shiftLeft, Nat.shiftLeft_shiftLeft, Nat.shiftLeft_zero]

/-- Witness for `claim1_call_redistribution` at the in-range byte address
`0x80000`. -/
theorem claim1_call_redistribution_witness :
    isUIntN 23 524288 = true ∧
    adjustFixupValue .fixup_call 524288 true =
      .ok (((((524288 >>> 1) >>> 14) % 2 ^ 4) <<< 20) |||
           ((((524288 >>> 1) >>> 5) % 2 ^ 17) <<< 8) |||
           ((524288 >>> 1) % 2 ^ 5)) :=
  ⟨by decide, claim1_call_redistribution.2 524288 (by decide)⟩

/-- C1, counterexample to the claimed positions: at byte address
`0x80000` (halved value `2^18`) the source encodes to `2^21`, while placing
the top four bits at bits 22–25 would give `2^22`. -/
theorem claim1_call_redistribution_cex :
    adjustFixupValue .fixup_call 524288 true = .ok 2097152 ∧
    callClaimedLayout (524288 >>> 1) = 4194304 ∧ (2097152 : Nat) ≠ 4194304 :=
  ⟨by decide, by decide, by decide⟩

/-- C3 (code bug).  The call redistribution is not injective on in-range
halved targets: byte addresses `0x208000` and `0x248000` are both accepted by
the 23-bit check, have different halved targets, and encode to the same word
`0x920000` — so no decoding of the produced fields can reproduce the original
halved branch target for all in-range values, contrary to the round-trip the
layout comment in the code itself (`1001 kkkk 010k kkkk kkkk kkkk 111k kkkk`)
promises. -/
theorem claim3_call_encoding_collision :
    adjustFixupValue .fixup_call 2129920 true = .ok 9568256 ∧
    adjustFixupValue .fixup_call 2392064 true = .ok 9568256 ∧
    isUIntN 23 2129920 = true ∧ isUIntN 23 2392064 = true ∧
    (2129920 >>> 1 : Nat) ≠ (2392064 >>> 1 : Nat) :=
  ⟨by decide, by decide, by decide, by decide, by decide⟩

/-- C6 (corrected).  In the LDI byte-extraction family the extracted byte
is re-split so that its bits 4–7 land at bits 8–11 of the encoded halfword —
the *low* nibble of the high byte — and its bits 0–3 stay at bits 0–3. -/
theorem claim6_ldi_resplit_amended (v : Nat) :
    adjustFixupValue .fixup_ldi v true =
      .ok ((((v >>> 4) % 2 ^ 4) <<< 8) ||| (v % 2 ^ 4)) ∧
    adjustFixupValue .fixup_lo8_ldi v true =
      .ok (((((v &&& 0xff) >>> 4) % 2 ^ 4) <<< 8) ||| ((v &&& 0xff) % 2 ^ 4)) ∧
    adjustFixupValue .fixup_hi8_ldi v true =
      .ok (((((v &&& 0xff00) >>> 8 >>> 4) % 2 ^ 4) <<< 8) |||
           ((v &&& 0xff00) >>> 8 % 2 ^ 4)) ∧
    adjustFixupValue .fixup_hh8_ldi v true =
      .ok (((((v &&& 0xff0000) >>> 16 >>> 4) % 2 ^ 4) <<< 8) |||
           ((v &&& 0xff0000) >>> 16 % 2 ^ 4)) ∧
    adjustFixupValue .fixup_ms8_ldi v true =
      .ok (((((v &&& 0xff000000) >>> 24 >>> 4) % 2 ^ 4) <<< 8) |||
           ((v &&& 0xff000000) >>> 24 % 2 ^ 4)) := by
  refine ⟨?_, ?_, ?_, ?_, ?_⟩ <;>
    simp only [adjustFixupValue, adjust.ldi.lo8, adjust.ldi.hi8, adjust.ldi.hh8,
      adjust.ldi.ms8, ldi_fixup_eq]

/-- C6, counterexample to the claimed destination: for the extracted byte
`0xf0` the source produces `0xf00` (upper nibble at bits 8–11), while moving
it to bits 4–7 of the high byte (bits 12–15) would give `0xf000`. -/
theorem claim6_ldi_resplit_cex :
    adjustFixupValue .fixup_lo8_ldi 240 true = .ok 3840 ∧
    ldiClaimedResplit 240 = 61440 ∧ (3840 : Nat) ≠ 61440 :=
  ⟨by decide, by decide, by decide⟩

/-- C10 (confirmed).  A `fixup_16` value failing the unsigned 16-bit check
with a diagnostic context produces exactly the message
`out of range port number (expected an integer in the range 0 to 65535)`. -/
theorem claim10_fixup16_message :
    adjustFixupValue .fixup_16 65536 true =
      .error (.diagnostic
        ("out of range port number (expected an integer in the range 0 to 65535)")) := by
  decide

/-- C2 (corrected).  `adjustFixupValue` succeeds exactly when the range
check it actually performs passes — which for the branch kinds uses
`TargetSize + 1` bits and for `fixup_port6` uses 6 bits, not the declared
width. -/
theorem claim2_success_iff_check (k : AVRFixupKind) (v : Nat) (ctx : Bool) :
    adjustProducesValue k v ctx = adjustSuccessCondition k v := by
  cases k <;>
    simp only [adjustProducesValue, adjustFixupValue, adjustSuccessCondition,
      adjust.fixup_7_pcrel, adjust.fixup_13_pcrel, adjust.fixup_call,
      adjust.adjustBranch, adjust.adjustRelativeBranch, adjust.fixup_6_adiw,
      adjust.fixup_port5, adjust.fixup_port6, producesValue_mapOk,
      producesValue_afterCheck, checkPasses_unsigned_width,
      checkPasses_signed_width, getFixupKindInfo] <;> rfl

/-- C2, counterexample to the claim as stated: `fixup_call` is
range-checked as unsigned and its declared bit width is 22, yet the value
`2^22` — outside `[0, 2^22)` — is accepted without a diagnostic (the check
width is 23). -/
theorem claim2_success_iff_check_cex :
    adjustProducesValue .fixup_call 4194304 true = true ∧
    (getFixupKindInfo .fixup_call).targetSize = 22 ∧ ¬(4194304 < 2 ^ 22) :=
  ⟨by decide, by decide, by decide⟩

/-- C8 (confirmed).  For each byte-extraction kind, the negated variant
negates the full-width original value (in `uint64_t` arithmetic) strictly
before extraction, so adjusting the negated kind on `V` equals adjusting the
plain kind on `-V`. -/
theorem claim8_neg_before_extraction (v : Nat) (ctx : Bool) :
    adjustFixupValue .fixup_lo8_ldi_neg v ctx =
      adjustFixupValue .fixup_lo8_ldi (adjust.ldi.neg v) ctx ∧
    adjustFixupValue .fixup_hi8_ldi_neg v ctx =
      adjustFixupValue .fixup_hi8_ldi (adjust.ldi.neg v) ctx ∧
    adjustFixupValue .fixup_hh8_ldi_neg v ctx =
      adjustFixupValue .fixup_hh8_ldi (adjust.ldi.neg v) ctx ∧
    adjustFixupValue .fixup_ms8_ldi_neg v ctx =
      adjustFixupValue .fixup_ms8_ldi (adjust.ldi.neg v) ctx :=
  ⟨rfl, rfl, rfl, rfl⟩

/-- C7 (confirmed).  `processFixupValue` marks the three branch-target
kinds unresolved without touching the value, whatever the incoming resolution
state; every other kind is adjusted immediately (with the assembler context),
after normalizing the value by `+2` exactly when the referenced symbol is a
temporary label, and the incoming resolution state is preserved. -/
theorem claim7_resolution_policy (k : AVRFixupKind) (temp : Bool) (v : Nat)
    (res : Bool) (hv : v < two64) :
    ((k = .fixup_7_pcrel ∨ k = .fixup_13_pcrel ∨ k = .fixup_call) →
      processFixupValue k temp v res = .ok (v, false)) ∧
    (¬(k = .fixup_7_pcrel ∨ k = .fixup_13_pcrel ∨ k = .fixup_call) →
      processFixupValue k temp v res =
        Except.map (fun w => (w, res))
          (adjustFixupValue k ((v + if temp then 2 else 0) % two64) true)) := by
  have hmod : v % two64 = v := Nat.mod_eq_of_lt hv
  cases k <;> cases temp <;>
    simp_all [processFixupValue, Except.map] <;>
    cases adjustFixupValue _ _ true <;> rfl

/-- Witness for `claim7_resolution_policy`: a statically-known call target is
still deferred, and a non-branch kind is adjusted with the `+2` temporary
normalization. -/
theorem claim7_resolution_policy_witness :
    processFixupValue .fixup_call false 100 true = .ok (100, false) ∧
    processFixupValue .fixup_6_adiw true 7 true =
      Except.map (fun w => (w, true))
        (adjustFixupValue .fixup_6_adiw ((7 + 2) % two64) true) :=
  ⟨(claim7_resolution_policy .fixup_call false 100 true (by decide)).1
      (.inr (.inr rfl)),
    (claim7_resolution_policy .fixup_6_adiw true 7 true (by decide)).2
      (by simp)⟩

/-- C4 (corrected).  `applyFixup` faults on every out-of-bounds
combination with a nonzero value; but a zero value short-circuits before the
bounds assertion and returns the buffer untouched even when
`byteOffset + spannedBytes > bufferLength`. -/
theorem claim4_apply_bounds_fault :
    (∀ (k : AVRFixupKind) (off v : Nat) (data : List Nat), v ≠ 0 →
      data.length < off + numBytesOf k → applyFixup k off v data = none) ∧
    (∀ (k : AVRFixupKind) (off : Nat) (data : List Nat),
      applyFixup k off 0 data = some data) := by
  constructor
  · intro k off v data hv hoob
    simp only [applyFixup, if_neg hv]
    rw [if_neg (by omega)]
  · intro k off data
    simp [applyFixup]

/-- Witness for `claim4_apply_bounds_fault`: a nonzero value at an
out-of-bounds offset faults. -/
theorem claim4_apply_bounds_fault_witness :
    applyFixup .fixup_ldi 5 7 [0, 0, 0] = none :=
  claim4_apply_bounds_fault.1 .fixup_ldi 5 7 [0, 0, 0] (by decide) (by decide)

/-- C4, counterexample to the claim as stated: with value `0` an
out-of-bounds `applyFixup` does not fault (it returns the buffer unchanged),
although `byteOffset + spannedBytes > bufferLength`. -/
theorem claim4_apply_bounds_fault_cex :
    applyFixup .fixup_ldi 5 0 [0, 0, 0] = some [0, 0, 0] ∧
    3 < 5 + numBytesOf .fixup_ldi :=
  ⟨by decide, by decide⟩

/-!  Helper lemmas for the PC-relative branch kinds (C5). -/

/-- The 7-bit PC-relative adjustment on the low in-range displacements. -/
theorem pcrel7_low : ∀ w, w < 128 →
    adjustFixupValue .fixup_7_pcrel w true =
      .ok ((((toInt64 w - 2).fdiv 2).emod (2 ^ 7)).toNat) := by
  decide

/-- The 7-bit PC-relative adjustment on the high (negative) in-range
displacements. -/
theorem pcrel7_high : ∀ r, r < 128 →
    adjustFixupValue .fixup_7_pcrel (18446744073709551488 + r) true =
      .ok ((((toInt64 (18446744073709551488 + r) - 2).fdiv 2).emod (2 ^ 7)).toNat) := by
  decide

set_option maxRecDepth 4000 in
/-- The 12-bit PC-relative adjustment on the low in-range displacements,
indexed in chunks of 128 to keep the recursion of the decision procedure shallow. -/
theorem pcrel13_low_chunked : ∀ a, a < 32 → ∀ b, b < 128 →
    adjustFixupValue .fixup_13_pcrel (a * 128 + b) true =
      .ok ((((toInt64 (a * 128 + b) - 2).fdiv 2).emod (2 ^ 12)).toNat) := by
  decide

set_option maxRecDepth 4000 in
/-- The 12-bit PC-relative adjustment on the high (negative) in-range
displacements, indexed in chunks of 128. -/
theorem pcrel13_high_chunked : ∀ a, a < 32 → ∀ b, b < 128 →
    adjustFixupValue .fixup_13_pcrel (18446744073709547520 + (a * 128 + b)) true =
      .ok ((((toInt64 (18446744073709547520 + (a * 128 + b)) - 2).fdiv 2).emod
        (2 ^ 12)).toNat) := by
  decide

/-- An in-range `uint64_t` displacement is either small or wraps from the top
of the range. -/
theorem isIntN_split (N v : Nat) (hN : N ≤ 62) (hv : v < two64)
    (h : isIntN N v = true) :
    v < 2 ^ (N - 1) ∨ two64 - 2 ^ (N - 1) ≤ v := by
  have h64 : ¬(64 ≤ N) := by omega
  have h' : -(((2 ^ (N - 1) : Nat) : Int)) ≤ toInt64 v ∧
      toInt64 v < ((2 ^ (N - 1) : Nat) : Int) := by
    have hcast : (((2 ^ (N - 1) : Nat)) : Int) = (2 ^ (N - 1) : Int) := by
      push_cast
      ring
    rw [hcast]
    simpa [isIntN, h64] using h
  have hQ : (2 : Nat) ^ (N - 1) ≤ 2 ^ 62 := Nat.pow_le_pow_right (by norm_num) (by omega)
  simp only [two64] at hv ⊢
  by_cases hc : v < 9223372036854775808
  · rw [show toInt64 v = (v : Int) by simp [toInt64, hc]] at h'
    omega
  · rw [show toInt64 v = (v : Int) - 18446744073709551616 by simp [toInt64, hc]] at h'
    omega

/-- C5 (confirmed).  The PC-relative branch kinds check a signed field of
`TargetSize + 1` bits, and on every in-range displacement the produced value
is the displacement minus 2, arithmetically shifted right by one, masked to
the field width (`0x7f` for the 7-bit form, `0xfff` for the 12-bit form); in
particular a zero raw displacement adjusts to the all-ones pattern `0x7f`. -/
theorem claim5_pcrel_adjust :
    (∀ v ctx, adjustProducesValue .fixup_7_pcrel v ctx =
      isIntN ((getFixupKindInfo .fixup_7_pcrel).targetSize + 1) v) ∧
    (∀ v ctx, adjustProducesValue .fixup_13_pcrel v ctx =
      isIntN ((getFixupKindInfo .fixup_13_pcrel).targetSize + 1) v) ∧
    (∀ v : Nat, v < two64 → isIntN 8 v = true →
      adjustFixupValue .fixup_7_pcrel v true =
        .ok ((((toInt64 v - 2).fdiv 2).emod (2 ^ 7)).toNat)) ∧
    (∀ v : Nat, v < two64 → isIntN 13 v = true →
      adjustFixupValue .fixup_13_pcrel v true =
        .ok ((((toInt64 v - 2).fdiv 2).emod (2 ^ 12)).toNat)) ∧
    adjustFixupValue .fixup_7_pcrel 0 true = .ok 0x7f := by
  refine ⟨?_, ?_, ?_, ?_, by decide⟩
  · intro v ctx
    simp [adjustProducesValue, adjustFixupValue, adjust.fixup_7_pcrel,
      adjust.adjustRelativeBranch, producesValue_mapOk, producesValue_afterCheck,
      checkPasses_signed_width, getFixupKindInfo]
  · intro v ctx
    simp [adjustProducesValue, adjustFixupValue, adjust.fixup_13_pcrel,
      adjust.adjustRelativeBranch, producesValue_mapOk, producesValue_afterCheck,
      checkPasses_signed_width, getFixupKindInfo]
  · intro v hv h
    rcases isIntN_split 8 v (by omega) hv h with hlow | hhigh
    · exact pcrel7_low v (by simpa using hlow)
    · obtain ⟨r, rfl⟩ : ∃ r, v = 18446744073709551488 + r :=
        ⟨v - 18446744073709551488, by simp only [two64] at hhigh; omega⟩
      refine pcrel7_high r ?_
      simp only [two64] at hv
      omega
  · intro v hv h
    rcases isIntN_split 13 v (by omega) hv h with hlow | hhigh
    · have hlow' : v < 4096 := by simpa using hlow
      obtain ⟨a, b, ha, hb, rfl⟩ : ∃ a b, a < 32 ∧ b < 128 ∧ v = a * 128 + b :=
        ⟨v / 128, v % 128, by omega, by omega, by omega⟩
      exact pcrel13_low_chunked a ha b hb
    · obtain ⟨r, rfl⟩ : ∃ r, v = 18446744073709547520 + r :=
        ⟨v - 18446744073709547520, by simp only [two64] at hhigh; omega⟩
      have hr : r < 4096 := by simp only [two64] at hv; omega
      obtain ⟨a, b, ha, hb, rfl⟩ : ∃ a b, a < 32 ∧ b < 128 ∧ r = a * 128 + b :=
        ⟨r / 128, r % 128, by omega, by omega, by omega⟩
      exact pcrel13_high_chunked a ha b hb

/-- Witness for `claim5_pcrel_adjust`: the in-range displacements 0 (7-bit
form) and 2 (12-bit form). -/
theorem claim5_pcrel_adjust_witness :
    adjustFixupValue .fixup_7_pcrel 0 true =
      .ok ((((toInt64 0 - 2).fdiv 2).emod (2 ^ 7)).toNat) ∧
    adjustFixupValue .fixup_13_pcrel 2 true =
      .ok ((((toInt64 2 - 2).fdiv 2).emod (2 ^ 12)).toNat) :=
  ⟨claim5_pcrel_adjust.2.2.1 0 (by decide) (by decide),
    claim5_pcrel_adjust.2.2.2.1 2 (by decide) (by decide)⟩

/-!  Helper lemmas for the applier (C9). -/

/-- Setting a `List` entry at a different index leaves `getD` unchanged. -/
theorem getD_set_ne (l : List Nat) (i j a : Nat) (h : i ≠ j) :
    (l.set i a).getD j 0 = l.getD j 0 := by
  simp [List.getD_eq_getElem?_getD, List.getElem?_set_ne h]

/-- The applier loop does not change the length of the buffer. -/
theorem applyBytes_length (Data : List Nat) (Offset Value : Nat) :
    ∀ n, (applyBytes Data Offset Value n).length = Data.length
  | 0 => rfl
  | n + 1 => by
    simp [applyBytes, applyBytes_length Data Offset Value n]

/-- The applier loop leaves every byte outside `[Offset, Offset + n)`
unchanged. -/
theorem applyBytes_getD_outside (Data : List Nat) (Offset Value n j : Nat)
    (hj : j < Offset ∨ Offset + n ≤ j) :
    (applyBytes Data Offset Value n).getD j 0 = Data.getD j 0 := by
  induction n with
  | zero => rfl
  | succ n ih =>
    have hne : Offset + n ≠ j := by omega
    simp only [applyBytes]
    rw [getD_set_ne _ _ _ _ hne]
    exact ih (by omega)

/-- The applier loop only ORs: every bit set before stays set. -/
theorem applyBytes_testBit_mono (Data : List Nat) (Offset Value n j b : Nat)
    (h : (Data.getD j 0).testBit b = true) :
    ((applyBytes Data Offset Value n).getD j 0).testBit b = true := by
  induction n with
  | zero => exact h
  | succ n ih =>
    by_cases hj : Offset + n = j
    · subst hj
      simp only [applyBytes]
      by_cases hlen : Offset + n < (applyBytes Data Offset Value n).length
      · rw [List.getD_eq_getElem?_getD, List.getElem?_set_self hlen]
        simpa [Nat.testBit_or] using Or.inl ih
      · rw [List.set_eq_of_length_le (by omega)]
        exact ih
    · simp only [applyBytes]
      rw [getD_set_ne _ _ _ _ hj]
      exact ih

/-- C9 (confirmed).  An in-bounds `applyFixup` succeeds, keeps the buffer
length, leaves every byte outside the spanned range untouched, and within the
buffer never clears a bit that was already set (the merge only ORs). -/
theorem claim9_apply_or_merge_frame (k : AVRFixupKind) (off v : Nat)
    (data : List Nat) (hlen : off + numBytesOf k ≤ data.length) :
    ∃ data', applyFixup k off v data = some data' ∧
      data'.length = data.length ∧
      (∀ j, j < off ∨ off + numBytesOf k ≤ j → data'.getD j 0 = data.getD j 0) ∧
      (∀ j b, (data.getD j 0).testBit b = true →
        (data'.getD j 0).testBit b = true) := by
  by_cases hz : v = 0
  · subst hz
    exact ⟨data, by simp [applyFixup], rfl, fun j _ => rfl, fun j b h => h⟩
  · refine ⟨applyBytes data off ((v <<< (getFixupKindInfo k).targetOffset) % two64)
      (numBytesOf k), ?_, applyBytes_length _ _ _ _, ?_, ?_⟩
    · simp [applyFixup, hz, hlen]
    · intro j hj
      exact applyBytes_getD_outside _ _ _ _ _ hj
    · intro j b h
      exact applyBytes_testBit_mono _ _ _ _ _ _ h

/-- Witness for `claim9_apply_or_merge_frame`: a two-byte 7-bit branch fixup
merged into a buffer with opcode bits already present. -/
theorem claim9_apply_or_merge_frame_witness :
    ∃ data', applyFixup .fixup_7_pcrel 0 127 [128, 248] = some data' ∧
      data'.length = ([128, 248] : List Nat).length ∧
      (∀ j, j < 0 ∨ 0 + numBytesOf .fixup_7_pcrel ≤ j →
        data'.getD j 0 = ([128, 248] : List Nat).getD j 0) ∧
      (∀ j b, (([128, 248] : List Nat).getD j 0).testBit b = true →
        (data'.getD j 0).testBit b = true) :=
  claim9_apply_or_merge_frame .fixup_7_pcrel 0 127 [128, 248] (by decide)

end AVR
